import Mathlib

/-!
Verification of the portfolio site's client-side JavaScript against its
specification.  The service worker (`dist/sw.js`), the projects manager,
the publications manager, the AI-engineering projects page and the image
optimizer (`assets/js/accessibility.js`) are shallowly embedded as pure
Lean functions; browser caches become association lists keyed by pathname,
and the network becomes a function from pathname to an optional response
(`none` models a `fetch` that rejects).
-/

namespace Portfolio

/-! ## String helpers: JS `String.prototype.includes` / `endsWith` -/

/-- Does the character list `sub` occur contiguously inside `s`? -/
def containsSub : List Char → List Char → Bool
  | sub, [] => sub.isEmpty
  | sub, c :: rest => sub.isPrefixOf (c :: rest) || containsSub sub rest

/-- JS `s.includes (sub)`. -/
def sIncludes (s sub : String) : Bool := containsSub sub.toList s.toList

/-- JS `s.endsWith (suff)`. -/
def sEndsWith (s suff : String) : Bool := suff.toList.isSuffixOf s.toList

/-! ## Service worker data model (dist/sw.js) -/

def STATIC_CACHE : String := "portfolio-static-v2"

def DYNAMIC_CACHE : String := "portfolio-dynamic-v2"

/-- A browser `Response`: `ok` is `status` in range 200-299; we record it
as the field the code branches on. -/
structure Response where
  ok : Bool
  status : Nat
  body : String
deriving Repr, DecidableEq

/-- The parts of a browser `Request` the service worker inspects. -/
structure Request where
  method : String
  origin : String
  pathname : String
  destination : String
deriving Repr, DecidableEq

/-- The two caches the worker writes to, each an association list from
pathname to response (most recent entry first). -/
structure CacheState where
  staticCache : List (String × Response)
  dynamicCache : List (String × Response)
deriving Repr, DecidableEq

/-- `caches.match`: search every cache, static cache first. -/
def cachesMatch (st : CacheState) (path : String) : Option Response :=
  (st.staticCache.lookup path).orElse fun _ => st.dynamicCache.lookup path

def putStatic (st : CacheState) (path : String) (r : Response) : CacheState :=
  { st with staticCache := (path, r) :: st.staticCache }

def putDynamic (st : CacheState) (path : String) (r : Response) : CacheState :=
  { st with dynamicCache := (path, r) :: st.dynamicCache }

/-- The network: `none` models `fetch` rejecting (offline / network
error); `some r` models `fetch` resolving with `r` (possibly non-ok). -/
def Net : Type := String → Option Response

/-! ## Asset classification (sw.js `isStaticAsset` etc.) -/

def isStaticAsset (pathname : String) : Bool :=
  sIncludes pathname "/dist/css/" ||
  sIncludes pathname "/dist/js/" ||
  sEndsWith pathname ".css" ||
  sEndsWith pathname ".js" ||
  sEndsWith pathname ".pdf" ||
  sIncludes pathname "/assets/images/profile/" ||
  sIncludes pathname "/assets/images/icons/"

def isDynamicAsset (pathname : String) : Bool :=
  sIncludes pathname "/assets/images/projects/" ||
  sEndsWith pathname ".png" ||
  sEndsWith pathname ".jpg" ||
  sEndsWith pathname ".jpeg" ||
  sEndsWith pathname ".svg" ||
  sEndsWith pathname ".webp"

def isDataRequest (pathname : String) : Bool :=
  sIncludes pathname "/assets/data/" ||
  sEndsWith pathname ".json"

/-! ## The three strategies -/

/-- Outcome of one strategy call: `result` is `.error ()` when the JS
function throws, `.ok none` when it resolves with `null`, `.ok (some r)`
when it resolves with response `r`; `fetched` lists the pathnames passed
to `fetch`, in order. -/
structure StratResult where
  result : Except Unit (Option Response)
  state : CacheState
  fetched : List String
deriving Repr

/-- sw.js `cacheFirst`: serve from cache; on a miss fetch, cache an ok
response in the static cache, return the network response; rethrow
network errors. -/
def cacheFirst (st : CacheState) (net : Net) (path : String) : StratResult :=
  match cachesMatch st path with
  | some r => ⟨.ok (some r), st, []⟩
  | none =>
    match net path with
    | some nr => ⟨.ok (some nr), if nr.ok then putStatic st path nr else st, [path]⟩
    | none => ⟨.error (), st, [path]⟩

/-- sw.js `staleWhileRevalidate`: always start a fetch whose ok result is
put in the dynamic cache; resolve with the cached response if there is
one, otherwise with the network result (`null` if the fetch rejected). -/
def staleWhileRevalidate (st : CacheState) (net : Net) (path : String) : StratResult :=
  let cached := cachesMatch st path
  match net path with
  | some nr =>
      ⟨.ok (cached.orElse fun _ => some nr),
       if nr.ok then putDynamic st path nr else st, [path]⟩
  | none => ⟨.ok (cached.orElse fun _ => none), st, [path]⟩

/-- sw.js `networkFirst`: fetch, cache an ok response in the dynamic
cache and return it; on a network error fall back to the cache, and
rethrow when the cache misses too. -/
def networkFirst (st : CacheState) (net : Net) (path : String) : StratResult :=
  match net path with
  | some nr => ⟨.ok (some nr), if nr.ok then putDynamic st path nr else st, [path]⟩
  | none =>
    match cachesMatch st path with
    | some r => ⟨.ok (some r), st, [path]⟩
    | none => ⟨.error (), st, [path]⟩

/-- sw.js `handleOffline`: cached match, else a document falls back to
the cached `/index.html`, an image to the cached fallback SVG, and
everything else (or a miss on those) to a 503 response. -/
def handleOffline (st : CacheState) (req : Request) : Response :=
  match cachesMatch st req.pathname with
  | some r => r
  | none =>
    if req.destination = "document" then
      match cachesMatch st "/index.html" with
      | some r => r
      | none => ⟨false, 503, "Offline"⟩
    else if req.destination = "image" then
      match cachesMatch st "/assets/images/fallback-image.svg" with
      | some r => r
      | none => ⟨false, 503, "Image unavailable"⟩
    else ⟨false, 503, "Resource unavailable offline"⟩

/-- The `try`/`catch` wrapper in `handleRequest`: a strategy that threw
is answered by `handleOffline` (which itself never throws). -/
def runWithOffline (req : Request) (r : StratResult) :
    Option Response × CacheState × List String :=
  match r.result with
  | .ok v => (v, r.state, r.fetched)
  | .error _ => (some (handleOffline r.state req), r.state, r.fetched)

/-- sw.js `handleRequest`, with its four dispatch branches verbatim
(static → cacheFirst, dynamic → staleWhileRevalidate, data →
networkFirst, default → networkFirst). -/
def handleRequest (st : CacheState) (net : Net) (req : Request) :
    Option Response × CacheState × List String :=
  if isStaticAsset req.pathname then
    runWithOffline req (cacheFirst st net req.pathname)
  else if isDynamicAsset req.pathname then
    runWithOffline req (staleWhileRevalidate st net req.pathname)
  else if isDataRequest req.pathname then
    runWithOffline req (networkFirst st net req.pathname)
  else
    runWithOffline req (networkFirst st net req.pathname)

/-- The three caching policies named by the spec. -/
inductive Strategy where
  | cacheFirstS
  | staleWhileRevalidateS
  | networkFirstS
deriving Repr, DecidableEq

/-- Run the named policy. -/
def runStrategy : Strategy → CacheState → Net → String → StratResult
  | .cacheFirstS, st, net, path => cacheFirst st net path
  | .staleWhileRevalidateS, st, net, path => staleWhileRevalidate st net path
  | .networkFirstS, st, net, path => networkFirst st net path

/-- The dispatch rule exactly as the claim states it: static-asset
patterns get cache-first, otherwise dynamic image patterns get
stale-while-revalidate, otherwise (data paths and all remaining paths)
network-first. -/
def specPolicy (pathname : String) : Strategy :=
  if isStaticAsset pathname then .cacheFirstS
  else if isDynamicAsset pathname then .staleWhileRevalidateS
  else .networkFirstS

/-- sw.js fetch listener: respond only to same-origin GET requests;
`none` means the listener returns without calling `respondWith`. -/
def fetchListener (selfOrigin : String) (st : CacheState) (net : Net)
    (req : Request) : Option (Option Response × CacheState × List String) :=
  if req.method ≠ "GET" then none
  else if req.origin ≠ selfOrigin then none
  else some (handleRequest st net req)

/-- sw.js activate listener: the cache names deleted from a given set of
existing caches. -/
def activateDeletes (cacheNames : List String) : List String :=
  cacheNames.filter fun n => decide (n ≠ STATIC_CACHE ∧ n ≠ DYNAMIC_CACHE)

/-- The cache names that survive activation. -/
def activateSurvivors (cacheNames : List String) : List String :=
  cacheNames.filter fun n => ! (activateDeletes cacheNames).contains n

/-! ## ProjectsManager (projects script) -/

/-- The project fields the manager reads. -/
structure Project where
  id : String
  title : String
  category : String
  description : String
  technologies : List String
  images : List String
deriving Repr, DecidableEq

/-- Tag every entry of a loaded payload with its category, as in
`...p, category: 'ai-product'` etc. -/
def withCategory (c : String) (ps : List Project) : List Project :=
  ps.map fun p => { p with category := c }

/-- `loadProjects`: each argument is the decoded `projects` array of one
data file, `none` when its fetch failed, was non-ok or had no such field
(the code collapses all of these to `[]` via the `?.projects || []`
chain).  Throws when no projects loaded at all. -/
def loadProjects (ai ml research : Option (List Project)) :
    Except Unit (List Project) :=
  let all := withCategory "ai-product" (ai.getD []) ++
    withCategory "ml-engineering" (ml.getD []) ++
    withCategory "research" (research.getD [])
  if all.isEmpty then .error () else .ok all

/-- The card markup reduced to the data it embeds. -/
structure ProjectCard where
  projectId : String
  category : String
  title : String
deriving Repr, DecidableEq

/-- `createProjectCard`, reduced to the card's identifying data. -/
def createProjectCard (p : Project) : ProjectCard :=
  ⟨p.id, p.category, p.title⟩

/-- What the projects grid can hold after rendering. -/
inductive GridContent where
  | emptyMessage (categoryName : String)
  | cards (cards : List ProjectCard)
  | errorState (heading message : String)
deriving Repr, DecidableEq

/-- `getCategoryDisplayName`. -/
def getCategoryDisplayName (category : String) : String :=
  if category = "all" then "Projects"
  else if category = "ai-product" then "AI Product Management Projects"
  else if category = "ml-engineering" then "ML Engineering Projects"
  else if category = "research" then "Research Projects"
  else "Projects"

/-- `renderProjects` on the currently filtered list. -/
def renderProjects (currentCategory : String) (filtered : List Project) :
    GridContent :=
  if filtered.isEmpty then
    .emptyMessage (getCategoryDisplayName currentCategory)
  else
    .cards (filtered.map createProjectCard)

/-- The hard-coded fallback projects of `loadFallbackProjects`. -/
def fallbackProjects : List Project :=
  [⟨"autodescribe", "AutoDescribe", "ai-product",
    "RAG + human-in-the-loop product description generator that automates content creation while maintaining quality control.",
    ["RAG", "Python", "OpenAI API", "Human-in-the-loop", "NLP"],
    ["assets/images/projects/autodescribe/dashboard.svg"]⟩,
   ⟨"drosophila-neurotoxicity", "Neurotoxicity Analysis with Drosophila", "research",
    "Understanding the neurotoxic effects of environmental compounds using Drosophila melanogaster as a model organism.",
    ["Behavioral Analysis", "Electrophysiology", "Molecular Biology", "Statistical Analysis"],
    ["assets/images/projects/drosophila/experimental-setup.svg"]⟩]

/-- `ProjectsManager.init`: load, render with the default `all` filter;
on failure fall back to the hard-coded projects (which load without
throwing, so `showError` is unreachable on this path). -/
def projectsInit (ai ml research : Option (List Project)) : GridContent :=
  match loadProjects ai ml research with
  | .ok l => renderProjects "all" l
  | .error _ => renderProjects "all" fallbackProjects

/-! ## PublicationsManager (assets/js/publications.js) -/

/-- The publication fields the sort and the card read; `publishedDate`
is the parsed `new Date(...)` timestamp as an integer. -/
structure Publication where
  id : String
  title : String
  featured : Bool
  publishedDate : Int
deriving Repr, DecidableEq

/-- The sort comparator of `renderPublications` as a `Bool` order:
`pubLe a b` holds iff the JS comparator returns ≤ 0 on `(a, b)` —
featured entries first, then newest date first. -/
def pubLe (a b : Publication) : Bool :=
  if a.featured && !b.featured then true
  else if !a.featured && b.featured then false
  else decide (b.publishedDate ≤ a.publishedDate)

/-- The sorted order produced by `this.publications.sort(...)` (a stable
sort consistent with the comparator). -/
def sortPublications (pubs : List Publication) : List Publication :=
  pubs.mergeSort pubLe

/-- A publication card reduced to its identifying data. -/
structure PubCard where
  publicationId : String
  title : String
deriving Repr, DecidableEq

/-- `createPublicationCard`, reduced to the card's identifying data. -/
def createPublicationCard (p : Publication) : PubCard :=
  ⟨p.id, p.title⟩

/-- What the publications grid can hold. -/
inductive PubGridContent where
  | emptyState
  | errorState
  | cards (cards : List PubCard)
deriving Repr, DecidableEq

/-- `renderPublications`. -/
def renderPublications (pubs : List Publication) : PubGridContent :=
  if pubs.isEmpty then .emptyState
  else .cards ((sortPublications pubs).map createPublicationCard)

/-- `PublicationsManager.init`: a failed / non-ok / unparsable fetch
(argument `none`) throws inside `loadPublications` and lands in the
`catch`, which shows the error state. -/
def publicationsInit (fetched : Option (List Publication)) : PubGridContent :=
  match fetched with
  | none => .errorState
  | some pubs => renderPublications pubs

/-! ## AIEngineeringProjects (AI-engineering page script) -/

/-- What the AI-engineering grid can hold: the no-projects message or
one card per project. -/
inductive AIEGridContent where
  | noProjectsMessage
  | cards (cards : List ProjectCard)
deriving Repr, DecidableEq

/-- `AIEngineeringProjects.init`: `loadProjects` catches every fetch /
parse error and leaves `projects = []`; `renderProjects` shows the
hard-coded message for an empty list. -/
def aieInit (fetched : Option (List Project)) : AIEGridContent :=
  match fetched with
  | none => .noProjectsMessage
  | some ps =>
    if ps.isEmpty then .noProjectsMessage
    else .cards (ps.map createProjectCard)

/-! ## ImageOptimizer (assets/js/accessibility.js) -/

def fallbackImage : String := "assets/images/fallback-image.svg"

/-- `this.categoryFallbacks` keyed lookup, for the keys the error
handler uses. -/
def categoryFallback (key : String) : String :=
  if key = "technical-diagram" then "assets/images/fallbacks/technical-diagram-fallback.svg"
  else if key = "research-plot" then "assets/images/fallbacks/research-plot-fallback.svg"
  else if key = "project-screenshot" then "assets/images/fallbacks/project-screenshot-fallback.svg"
  else "assets/images/fallbacks/default-fallback.svg"

/-- The image element state the optimizer reads and writes. -/
structure Img where
  src : String
  dataSrc : Option String
  dataLazy : Option String
  classes : List String
  ancestorClasses : List String
  alt : Option String
  titleAttr : Option String
deriving Repr, DecidableEq

/-- `classList.add`. -/
def classAdd (cs : List String) (c : String) : List String :=
  if cs.contains c then cs else cs ++ [c]

/-- `classList.remove`. -/
def classRemove (cs : List String) (c : String) : List String :=
  cs.filter fun x => x ≠ c

/-- `img.classList.contains(c) || img.closest('.c')`: the class is on
the element or on an ancestor. -/
def hasClassOrAncestor (img : Img) (c : String) : Bool :=
  img.classes.contains c || img.ancestorClasses.contains c

/-- `ImageOptimizer.handleImageError`: pick the fallback source from the
image's class / ancestor context, set it, add the `fallback` class,
remove the `loading` class, and default the `alt` and `title`
attributes. -/
def handleImageError (img : Img) : Img :=
  let fallbackSrc :=
    if hasClassOrAncestor img "technical-diagram" then categoryFallback "technical-diagram"
    else if hasClassOrAncestor img "research-plot" then categoryFallback "research-plot"
    else if hasClassOrAncestor img "project-screenshot" then categoryFallback "project-screenshot"
    else if img.classes.contains "artifact-image" then categoryFallback "technical-diagram"
    else fallbackImage
  { img with
    src := fallbackSrc,
    classes := classRemove (classAdd img.classes "fallback") "loading",
    alt := some (img.alt.getD "Image not available"),
    titleAttr := some "Image could not be loaded" }

/-- `ImageOptimizer.loadImage` with the preload outcome made explicit:
when `data-src`/`data-lazy` is present the `loading` class is added and
the preloader either succeeds (swap in the real source, mark `loaded`)
or fails (hand the element to `handleImageError`). -/
def loadImage (success : Bool) (img : Img) : Img :=
  match (img.dataSrc).orElse fun _ => img.dataLazy with
  | none => img
  | some src0 =>
    let loading := { img with classes := classAdd img.classes "loading" }
    if success then
      { loading with
        src := src0,
        classes := classRemove (classAdd loading.classes "loaded") "loading",
        dataSrc := none,
        dataLazy := none }
    else
      handleImageError loading

/-! ## Sample data used by the witness theorems -/

def r200 : Response := ⟨true, 200, "payload"⟩

def r503ish : Response := ⟨false, 404, "missing"⟩

def stEmpty : CacheState := ⟨[], []⟩

def stCss : CacheState := ⟨[("/dist/css/styles.min.css", r200)], []⟩

def stShot : CacheState := ⟨[], [("/assets/images/projects/shot.png", r200)]⟩

def netFail : Net := fun _ => none

def netOk : Net := fun _ => some r200

def reqShot : Request :=
  ⟨"GET", "https://site.example", "/assets/images/projects/shot.png", "image"⟩

def reqJson : Request :=
  ⟨"GET", "https://site.example", "/assets/data/projects.json", ""⟩

def sampleProject : Project :=
  ⟨"p1", "Project One", "", "first project", ["Python"], ["img.png"]⟩

def samplePub : Publication := ⟨"pub1", "Paper One", true, 100⟩

def sampleImg : Img :=
  ⟨"old.png", some "real.png", none, ["lazy-image"], [], none, none⟩

/-- A response stored in a cache, under any pathname: the "previously
cached response" of the spec's offline-fallback sentence. -/
def isCachedIn (st : CacheState) (r : Response) : Prop :=
  (∃ p, st.staticCache.lookup p = some r) ∨
  (∃ p, st.dynamicCache.lookup p = some r)

/-! ## Helper lemmas -/

lemma cachesMatch_isCachedIn {st : CacheState} {p : String} {r : Response}
    (h : cachesMatch st p = some r) : isCachedIn st r := by
  unfold cachesMatch at h
  cases hs : st.staticCache.lookup p with
  | some r0 =>
    rw [hs] at h
    exact Or.inl ⟨p, hs.trans (by simpa [Option.orElse] using h)⟩
  | none =>
    rw [hs] at h
    exact Or.inr ⟨p, by simpa [Option.orElse] using h⟩

lemma handleOffline_cached_or_503 (st : CacheState) (req : Request) :
    isCachedIn st (handleOffline st req) ∨ (handleOffline st req).status = 503 := by
  unfold handleOffline
  cases h : cachesMatch st req.pathname with
  | some r => exact Or.inl (cachesMatch_isCachedIn h)
  | none =>
    split_ifs
    · cases h2 : cachesMatch st "/index.html" with
      | some r => exact Or.inl (cachesMatch_isCachedIn h2)
      | none => exact Or.inr rfl
    · cases h2 : cachesMatch st "/assets/images/fallback-image.svg" with
      | some r => exact Or.inl (cachesMatch_isCachedIn h2)
      | none => exact Or.inr rfl
    · exact Or.inr rfl

lemma pubLe_trans (a b c : Publication) :
    pubLe a b = true → pubLe b c = true → pubLe a c = true := by
  unfold pubLe
  cases ha : a.featured <;> cases hb : b.featured <;> cases hc : c.featured <;>
    simp <;> omega

lemma pubLe_total (a b : Publication) : (pubLe a b || pubLe b a) = true := by
  unfold pubLe
  cases ha : a.featured <;> cases hb : b.featured <;> simp <;> omega

lemma classRemove_not_contains (cs : List String) (c : String) :
    (classRemove cs c).contains c = false := by
  simp [classRemove, List.elem_iff]

/-! ## Claim theorems -/

/-- Claim C1: for every request the service worker handles,
`handleRequest` dispatches to exactly one of the three caching policies,
determined solely by path matching on the request URL in priority order:
a static-asset pathname gets cache-first, otherwise a dynamic-image
pathname gets stale-while-revalidate, otherwise (data paths and all
remaining paths) network-first — `specPolicy` is that three-way rule and
`handleRequest` behaves as the policy it names, for every cache state
and network. -/
theorem handleRequest_dispatches_by_specPolicy
    (st : CacheState) (net : Net) (req : Request) :
    handleRequest st net req =
      runWithOffline req (runStrategy (specPolicy req.pathname) st net req.pathname) := by
  unfold handleRequest specPolicy runStrategy
  split_ifs <;> rfl

/-- Claim C8: the fetch listener calls `respondWith` (returns `some`)
exactly when the request method is GET and the request origin equals the
worker's own origin; for every non-GET or cross-origin request it
returns `none`, leaving the request to the network. -/
theorem fetchListener_gate (selfOrigin : String) (st : CacheState)
    (net : Net) (req : Request) :
    fetchListener selfOrigin st net req =
      if req.method = "GET" ∧ req.origin = selfOrigin
      then some (handleRequest st net req) else none := by
  unfold fetchListener
  split_ifs with h1 h2 h3 <;> simp_all

/-- Claim C9: activation deletes exactly the caches whose name is
neither `portfolio-static-v2` nor `portfolio-dynamic-v2`, and the two
current caches always survive activation. -/
theorem activate_cleans_old_caches (cacheNames : List String) (n : String) :
    (n ∈ activateDeletes cacheNames ↔
      n ∈ cacheNames ∧ n ≠ STATIC_CACHE ∧ n ≠ DYNAMIC_CACHE)
  ∧ (n ∈ activateSurvivors cacheNames ↔
      n ∈ cacheNames ∧ (n = STATIC_CACHE ∨ n = DYNAMIC_CACHE)) := by
  constructor
  · simp [activateDeletes, List.mem_filter]
  · simp [activateSurvivors, activateDeletes, List.mem_filter,
      List.contains_eq_any_beq, List.any_eq_true]
    intro h1 h2
    exact absurd h1 h2

/-- Claim C4: under the cache-first policy a cache hit is returned with
no network fetch and no state change; on a cache miss the network is
fetched, an ok network response is stored in the static cache (a non-ok
one is not), and the network response is returned. -/
theorem cacheFirst_policy (st : CacheState) (net : Net) (path : String) :
    (∀ r, cachesMatch st path = some r →
        cacheFirst st net path = ⟨.ok (some r), st, []⟩)
  ∧ (cachesMatch st path = none →
      (cacheFirst st net path).fetched = [path]
      ∧ ∀ nr, net path = some nr →
          (cacheFirst st net path).result = .ok (some nr)
          ∧ (nr.ok = true → (cacheFirst st net path).state = putStatic st path nr)
          ∧ (nr.ok = false → (cacheFirst st net path).state = st)) := by
  constructor
  · intro r hr
    unfold cacheFirst
    rw [hr]
  · intro hmiss
    unfold cacheFirst
    rw [hmiss]
    cases hn : net path with
    | some nr =>
      refine ⟨rfl, fun nr0 hnr0 => ?_⟩
      obtain rfl : nr = nr0 := Option.some.inj hnr0
      cases hok : nr.ok <;> simp [hok]
    | none =>
      exact ⟨rfl, fun nr0 hnr0 => Option.noConfusion hnr0⟩

/-- Witness for C4: a concrete cache hit on the cached stylesheet is
served from cache with an unchanged state and an empty fetch log. -/
theorem cacheFirst_policy_witness :
    cacheFirst stCss netFail "/dist/css/styles.min.css" =
      ⟨.ok (some r200), stCss, []⟩ :=
  (cacheFirst_policy stCss netFail "/dist/css/styles.min.css").1 r200 (by decide)

/-- Claim C2: under stale-while-revalidate, when a cached response
exists it is the resolved value for every possible network outcome
(including a failing network — the cached value is returned without
awaiting the fetch); the fetch is nevertheless issued, and whenever the
network yields an ok response that response is stored in the dynamic
cache. -/
theorem staleWhileRevalidate_policy (st : CacheState) (net : Net)
    (path : String) (r : Response) (hc : cachesMatch st path = some r) :
    (staleWhileRevalidate st net path).result = .ok (some r)
  ∧ (staleWhileRevalidate st net path).fetched = [path]
  ∧ (∀ nr, net path = some nr → nr.ok = true →
      (staleWhileRevalidate st net path).state = putDynamic st path nr)
  ∧ (net path = none → (staleWhileRevalidate st net path).state = st) := by
  unfold staleWhileRevalidate
  rw [hc]
  cases hn : net path with
  | some nr =>
    refine ⟨rfl, rfl, fun nr0 hnr0 hok => ?_, fun hnone => Option.noConfusion hnone⟩
    obtain rfl : nr = nr0 := Option.some.inj hnr0
    simp [hok]
  | none =>
    exact ⟨rfl, rfl, fun nr0 hnr0 _ => Option.noConfusion hnr0, fun _ => rfl⟩

/-- Witness for C2: a concrete cached project screenshot is returned
even though the network fetch fails, the fetch is still issued, and the
state is unchanged. -/
theorem staleWhileRevalidate_policy_witness :
    (staleWhileRevalidate stShot netFail "/assets/images/projects/shot.png").result
        = .ok (some r200)
  ∧ (staleWhileRevalidate stShot netFail "/assets/images/projects/shot.png").fetched
        = ["/assets/images/projects/shot.png"]
  ∧ (staleWhileRevalidate stShot netFail "/assets/images/projects/shot.png").state
        = stShot := by
  have h := staleWhileRevalidate_policy stShot netFail
    "/assets/images/projects/shot.png" r200 (by decide)
  exact ⟨h.1, h.2.1, h.2.2.2 rfl⟩

/-- Counterexample to claim C3 as stated: a GET for a project screenshot
(routed to stale-while-revalidate) with an empty cache and a failing
network makes `handleRequest` resolve with `null` (`none`) — neither a
previously cached response nor a 503 `Response`, because the
stale-while-revalidate catch returns `null` and nothing upstream
replaces it. -/
theorem handleRequest_swr_null_counterexample :
    (handleRequest stEmpty netFail reqShot).1 = none := by decide

/-- Claim C3 amended: when the network fetch fails, the value the worker
resolves with is a previously cached response or a 503 `Response` —
except on the stale-while-revalidate route with no cached response,
where it resolves with `null`. -/
theorem handleRequest_offline_fallback (st : CacheState) (net : Net)
    (req : Request) (hnet : net req.pathname = none) :
    if isStaticAsset req.pathname = false ∧ isDynamicAsset req.pathname = true
        ∧ cachesMatch st req.pathname = none
    then (handleRequest st net req).1 = none
    else ∃ r, (handleRequest st net req).1 = some r ∧
        (isCachedIn st r ∨ r.status = 503) := by
  unfold handleRequest
  by_cases hs : isStaticAsset req.pathname = true
  · rw [if_neg (by simp [hs])]
    rw [if_pos hs]
    unfold runWithOffline cacheFirst
    cases hc : cachesMatch st req.pathname with
    | some r =>
      exact ⟨r, rfl, Or.inl (cachesMatch_isCachedIn hc)⟩
    | none =>
      rw [hnet]
      exact ⟨handleOffline st req, rfl, handleOffline_cached_or_503 st req⟩
  · rw [if_neg hs]
    have hs' : isStaticAsset req.pathname = false := by
      cases h : isStaticAsset req.pathname
      · rfl
      · exact absurd h hs
    by_cases hd : isDynamicAsset req.pathname = true
    · rw [if_pos hd]
      unfold runWithOffline staleWhileRevalidate
      rw [hnet]
      cases hc : cachesMatch st req.pathname with
      | some r =>
        rw [if_neg (by simp [hc])]
        exact ⟨r, rfl, Or.inl (cachesMatch_isCachedIn hc)⟩
      | none =>
        rw [if_pos ⟨hs', hd, rfl⟩]
        rfl
    · rw [if_neg hd]
      rw [if_neg (by simp [hd])]
      have hnetwork : ∀ b : Bool,
          ∃ r, (if b = true
              then runWithOffline req (networkFirst st net req.pathname)
              else runWithOffline req (networkFirst st net req.pathname)).1 = some r ∧
            (isCachedIn st r ∨ r.status = 503) := by
        intro b
        have : (runWithOffline req (networkFirst st net req.pathname)).1 = some
            (match cachesMatch st req.pathname with
             | some r => r
             | none => handleOffline st req) := by
          unfold runWithOffline networkFirst
          rw [hnet]
          cases hc : cachesMatch st req.pathname <;> rfl
        cases hc : cachesMatch st req.pathname with
        | some r =>
          refine ⟨r, ?_, Or.inl (cachesMatch_isCachedIn hc)⟩
          cases b <;> simpa [hc] using this
        | none =>
          refine ⟨handleOffline st req, ?_, handleOffline_cached_or_503 st req⟩
          cases b <;> simpa [hc] using this
      exact (hnetwork (isDataRequest req.pathname)).elim fun r hr =>
        ⟨r, by
          have := hr.1
          by_cases hdata : isDataRequest req.pathname = true
          · simpa [hdata] using this
          · simpa [hdata] using this, hr.2⟩

/-- Witness for amended C3: a GET for the projects JSON (network-first
route) against an empty cache with a failing network resolves with the
generic 503 response. -/
theorem handleRequest_offline_fallback_witness :
    if isStaticAsset reqJson.pathname = false ∧ isDynamicAsset reqJson.pathname = true
        ∧ cachesMatch stEmpty reqJson.pathname = none
    then (handleRequest stEmpty netFail reqJson).1 = none
    else ∃ r, (handleRequest stEmpty netFail reqJson).1 = some r ∧
        (isCachedIn stEmpty r ∨ r.status = 503) :=
  handleRequest_offline_fallback stEmpty netFail reqJson rfl

/-- Claim C5: with the default `all` filter, a successful load renders
exactly one project card per loaded entry, in load order — AI product
projects, then ML engineering projects, then research projects. -/
theorem projects_one_card_per_entry (ai ml research : Option (List Project))
    (l : List Project) (h : loadProjects ai ml research = .ok l) :
    l = withCategory "ai-product" (ai.getD []) ++
        withCategory "ml-engineering" (ml.getD []) ++
        withCategory "research" (research.getD [])
  ∧ renderProjects "all" l = .cards (l.map createProjectCard)
  ∧ (l.map createProjectCard).length = l.length := by
  unfold loadProjects at h
  by_cases he : (withCategory "ai-product" (ai.getD []) ++
      withCategory "ml-engineering" (ml.getD []) ++
      withCategory "research" (research.getD [])).isEmpty = true
  · rw [if_pos he] at h
    exact absurd h (by simp)
  · rw [if_neg he] at h
    obtain rfl : _ = l := Except.ok.inj h
    refine ⟨rfl, ?_, List.length_map _ _⟩
    unfold renderProjects
    rw [if_neg he]

/-- Witness for C5: one concrete ML-engineering entry yields exactly its
one card, tagged with its category. -/
theorem projects_one_card_per_entry_witness :
    [{ sampleProject with category := "ml-engineering" }] =
        withCategory "ai-product" ((none : Option (List Project)).getD []) ++
        withCategory "ml-engineering" ((some [sampleProject]).getD []) ++
        withCategory "research" ((none : Option (List Project)).getD [])
  ∧ renderProjects "all" [{ sampleProject with category := "ml-engineering" }] =
      .cards ([{ sampleProject with category := "ml-engineering" }].map createProjectCard)
  ∧ ([{ sampleProject with category := "ml-engineering" }].map createProjectCard).length =
      [{ sampleProject with category := "ml-engineering" }].length :=
  projects_one_card_per_entry none (some [sampleProject]) none
    [{ sampleProject with category := "ml-engineering" }] rfl

/-- Claim C6: when a renderer's JSON fetch fails, each of the three
renderers falls back to hard-coded content or an error / empty message:
the projects manager renders the non-empty hard-coded fallback project
cards, the publications manager shows its error state, and the
AI-engineering page shows its no-projects message — none of them leaves
the section empty and, being total functions here because every JS path
is wrapped in `catch`, none rethrows. -/
theorem renderers_fallback_on_fetch_failure (ai ml research : Option (List Project))
    (h : loadProjects ai ml research = .error ()) :
    projectsInit ai ml research = .cards (fallbackProjects.map createProjectCard)
  ∧ fallbackProjects.map createProjectCard ≠ []
  ∧ publicationsInit none = .errorState
  ∧ aieInit none = .noProjectsMessage := by
  refine ⟨?_, by decide, rfl, rfl⟩
  unfold projectsInit
  rw [h]
  rfl

/-- Witness for C6: all three data files failing to fetch makes the
projects manager render the two hard-coded fallback cards. -/
theorem renderers_fallback_on_fetch_failure_witness :
    projectsInit none none none = .cards (fallbackProjects.map createProjectCard)
  ∧ fallbackProjects.map createProjectCard ≠ []
  ∧ publicationsInit none = .errorState
  ∧ aieInit none = .noProjectsMessage :=
  renderers_fallback_on_fetch_failure none none none rfl

/-- Claim C7: the image error handler always swaps the source to the
generic fallback SVG or one of the three category fallback SVGs, picks
the category fallback from the element's class / ancestor context (the
generic one when no category context matches), removes the `loading`
class, and is exactly what a failing lazy load invokes. -/
theorem image_error_swaps_to_fallback (img : Img) :
    ((handleImageError img).src = fallbackImage ∨
      (handleImageError img).src ∈ [categoryFallback "technical-diagram",
        categoryFallback "research-plot", categoryFallback "project-screenshot"])
  ∧ (hasClassOrAncestor img "technical-diagram" = true →
      (handleImageError img).src = categoryFallback "technical-diagram")
  ∧ (hasClassOrAncestor img "technical-diagram" = false →
      hasClassOrAncestor img "research-plot" = false →
      hasClassOrAncestor img "project-screenshot" = false →
      img.classes.contains "artifact-image" = false →
      (handleImageError img).src = fallbackImage)
  ∧ (handleImageError img).classes.contains "loading" = false
  ∧ (∀ s0, img.dataSrc = some s0 →
      loadImage false img =
        handleImageError { img with classes := classAdd img.classes "loading" }) := by
  refine ⟨?_, ?_, ?_, ?_, ?_⟩
  · unfold handleImageError
    split_ifs <;> simp
  · intro h1
    unfold handleImageError
    rw [if_pos h1]
  · intro h1 h2 h3 h4
    unfold handleImageError
    rw [if_neg (by simp [h1]), if_neg (by simp [h2]), if_neg (by simp [h3])]
    rw [if_neg (show ¬ (img.classes.contains "artifact-image" = true) by rw [h4]; simp)]
  · exact classRemove_not_contains _ "loading"
  · intro s0 hs0
    unfold loadImage
    rw [hs0]
    rfl

/-- Witness for C7: a concrete lazy project image with no category
context fails to load, gets the generic fallback SVG as its source, and
no longer carries the `loading` class. -/
theorem image_error_swaps_to_fallback_witness :
    loadImage false sampleImg =
      handleImageError { sampleImg with classes := classAdd sampleImg.classes "loading" }
  ∧ (handleImageError sampleImg).src = fallbackImage
  ∧ (handleImageError sampleImg).classes.contains "loading" = false := by
  have h := image_error_swaps_to_fallback sampleImg
  exact ⟨h.2.2.2.2 "real.png" rfl, h.2.2.1 (by decide) (by decide) (by decide) (by decide),
    h.2.2.2.1⟩

/-- Claim C10: rendering a non-empty publications list produces exactly
one card per entry (the rendered list is a permutation of the input) and
the order places every featured publication before every non-featured
one, with non-increasing `publishedDate` among entries of equal featured
status. -/
theorem publications_render_order (pubs : List Publication) (h : pubs ≠ []) :
    renderPublications pubs = .cards ((sortPublications pubs).map createPublicationCard)
  ∧ (sortPublications pubs).Perm pubs
  ∧ (sortPublications pubs).Pairwise (fun a b =>
      (a.featured = false → b.featured = false) ∧
      (a.featured = b.featured → b.publishedDate ≤ a.publishedDate)) := by
  refine ⟨?_, List.mergeSort_perm pubs pubLe, ?_⟩
  · unfold renderPublications
    rw [if_neg (by simpa [List.isEmpty_iff] using h)]
  · have hsorted := @List.sorted_mergeSort Publication pubLe pubLe_trans pubLe_total pubs
    refine hsorted.imp ?_
    intro a b hab
    unfold pubLe at hab
    constructor
    · intro haf
      by_contra hbf
      rw [Bool.not_eq_false] at hbf
      simp [haf, hbf] at hab
    · intro heq
      rw [← heq] at hab
      cases haf : a.featured <;> rw [haf] at hab <;> simpa using hab

/-- Witness for C10: a concrete two-entry list (one non-featured newer,
one featured older) renders the featured entry first and keeps both
entries. -/
theorem publications_render_order_witness :
    renderPublications [⟨"pub2", "Paper Two", false, 200⟩, samplePub] =
      .cards ((sortPublications [⟨"pub2", "Paper Two", false, 200⟩, samplePub]).map
        createPublicationCard)
  ∧ (sortPublications [⟨"pub2", "Paper Two", false, 200⟩, samplePub]).Perm
      [⟨"pub2", "Paper Two", false, 200⟩, samplePub]
  ∧ (sortPublications [⟨"pub2", "Paper Two", false, 200⟩, samplePub]).Pairwise
      (fun a b => (a.featured = false → b.featured = false) ∧
        (a.featured = b.featured → b.publishedDate ≤ a.publishedDate)) :=
  publications_render_order [⟨"pub2", "Paper Two", false, 200⟩, samplePub] (by decide)

end Portfolio
